import Mathlib

/-!
Shallow embedding of `src/nipype/utils/config.py` (class `NipypeConfig` and its
module-level data), together with a model of the parts of the Python standard
library `configparser.ConfigParser` that the module relies on.

Modelling conventions:

* Python strings are `String`; the Python value `None` is represented where it
  can occur.  A stored configuration value is a `PyVal := Option String`
  (`none` is Python `None`, which `ConfigParser.set` accepts and stores).
* A raised Python exception is modelled by an `Option`-valued result (`none` =
  an exception propagates to the caller) or by `PyResult` where the
  non-raising result itself needs to carry an `Option`.
* `warnings.warn` calls are modelled by returning a `List String` of the
  warning messages emitted during the call, in order.
* The `ConfigParser` model keeps the parser's two dictionaries `_defaults`
  (the DEFAULT section) and `_sections` as association lists; dictionaries are
  observed only through lookups, so an association list with first-match
  lookup is an adequate representation.  Option names go through
  `optionxform` (lower-casing) exactly where CPython applies it.  The
  behaviour modelled is that of the CPython 3.11 configparser: in particular
  `has_option` on a missing regular section returns `False` there, while
  `get` raises `NoSectionError`.
* Value interpolation (`BasicInterpolation`) is not modelled: values flow
  through `set`/`get` verbatim.  Interpolation only rewrites or rejects values
  containing a percent sign; no value appearing in the default configuration
  or in the claims contains one.  Likewise file-system paths, file parsing
  and the advisory file locks are outside the model: the contents of read
  configuration files are passed in as entry lists, and the JSON data file is
  passed in as its parsed contents.
-/

namespace Nipype

/-- Python value slot of a configuration option: `None` or a string. -/
abbrev PyVal := Option String

/-- ASCII lower-casing of one character (Python str.lower; every string this
module case-folds is ASCII). -/
def lowerChar (ch : Char) : Char :=
  if 65 ≤ ch.toNat ∧ ch.toNat ≤ 90 then Char.ofNat (ch.toNat + 32) else ch

/-- Python str.lower (ASCII case folding, defined by structural recursion so
that concrete instances evaluate). -/
def pyLower (s : String) : String := ⟨s.data.map lowerChar⟩

/-- First-match lookup in an association list with string keys
(models a Python dict read, `d[k]` / `k in d`). -/
def alookup {α : Type} : List (String × α) → String → Option α
  | [], _ => none
  | (k, v) :: rest, key => if k = key then some v else alookup rest key

/-- Replace the first binding of a key, or append a new one
(models a Python dict write `d[k] = v`). -/
def aset {α : Type} : List (String × α) → String → α → List (String × α)
  | [], k, v => [(k, v)]
  | (k', v') :: rest, k, v =>
      if k' = k then (k, v) :: rest else (k', v') :: aset rest k v

/-- State of a `configparser.ConfigParser`: the DEFAULT-section dictionary
`_defaults` and the per-section dictionaries `_sections`. -/
structure CPState where
  _defaults : List (String × PyVal)
  _sections : List (String × List (String × PyVal))
deriving DecidableEq

namespace ConfigParser

/-- CPython `RawConfigParser.optionxform`: option names are lower-cased. -/
def optionxform (s : String) : String := pyLower s

/-- CPython `RawConfigParser.has_option`: an empty or "DEFAULT" section name
selects the `_defaults` dictionary; a missing section yields `false`; an
existing section also consults `_defaults`. -/
def has_option (st : CPState) (sec opt : String) : Bool :=
  if sec = "" ∨ sec = "DEFAULT" then (alookup st._defaults (optionxform opt)).isSome
  else
    match alookup st._sections sec with
    | none => false
    | some m =>
        (alookup m (optionxform opt)).isSome ||
          (alookup st._defaults (optionxform opt)).isSome

/-- CPython `RawConfigParser.get` without fallback: `_unify_values` chains the
section dictionary over `_defaults` and raises `NoSectionError` when the
section is missing and is not "DEFAULT"; a missing option raises
`NoOptionError`.  Outer `none` models the raised exception; a stored `None`
value is returned as is (CPython returns `None` values raw). -/
def get (st : CPState) (sec opt : String) : Option PyVal :=
  match alookup st._sections sec with
  | some m =>
      (alookup m (optionxform opt)).orElse
        (fun _ => alookup st._defaults (optionxform opt))
  | none =>
      if sec = "DEFAULT" then alookup st._defaults (optionxform opt)
      else none

/-- CPython `RawConfigParser.BOOLEAN_STATES`. -/
def BOOLEAN_STATES : List (String × Bool) :=
  [("1", true), ("yes", true), ("true", true), ("on", true),
   ("0", false), ("no", false), ("false", false), ("off", false)]

/-- CPython `RawConfigParser._convert_to_boolean`: a stored `None` raises
(`None.lower()` is an `AttributeError`); an unrecognised spelling raises
`ValueError`; both are modelled as `none`. -/
def convert_to_boolean (v : PyVal) : Option Bool :=
  match v with
  | none => none
  | some s => alookup BOOLEAN_STATES (pyLower s)

/-- CPython `ConfigParser.getboolean`: read then convert; any raised
exception is `none`. -/
def getboolean (st : CPState) (sec opt : String) : Option Bool :=
  (get st sec opt).bind convert_to_boolean

/-- CPython `RawConfigParser.set`: an empty or "DEFAULT" section name writes
into `_defaults`; a missing section raises `NoSectionError` (modelled as
`none`); otherwise the option is written into the section dictionary under
its transformed name. -/
def set (st : CPState) (sec opt : String) (v : PyVal) : Option CPState :=
  if sec = "" ∨ sec = "DEFAULT" then
    some { st with _defaults := aset st._defaults (optionxform opt) v }
  else
    match alookup st._sections sec with
    | none => none
    | some m =>
        some { st with _sections := aset st._sections sec (aset m (optionxform opt) v) }

/-- One parsed "key = value" line under a "[section]" header, as consumed by
`read_file`/`readfp`/`read`: a "[DEFAULT]" header routes the binding into
`_defaults`; an unknown section is created; values read from text are always
strings. -/
def read_entry (st : CPState) (e : String × String × String) : CPState :=
  if e.1 = "DEFAULT" then
    { st with _defaults := aset st._defaults (optionxform e.2.1) (some e.2.2) }
  else
    match alookup st._sections e.1 with
    | none => { st with _sections := st._sections ++ [(e.1, [(optionxform e.2.1, some e.2.2)])] }
    | some m => { st with _sections := aset st._sections e.1 (aset m (optionxform e.2.1) (some e.2.2)) }

/-- CPython `ConfigParser.read_file` (also `readfp` and `read`), with the
configuration text already parsed into (section, option, value) entries in
file order: entries merge into the existing parser state, later entries
winning. -/
def read_file (st : CPState) (es : List (String × String × String)) : CPState :=
  es.foldl read_entry st

/-- Dictionary-level lookup of an (already transformed) option key inside one
named section, without the `_defaults` chaining.  Used to state frame
properties. -/
def sect_lookup (st : CPState) (sec x : String) : Option PyVal :=
  (alookup st._sections sec).bind (fun m => alookup m x)

end ConfigParser

/-- Module-level table `CONFIG_DEPRECATIONS`:
old option name maps to (replacement name, version deprecated at). -/
def CONFIG_DEPRECATIONS : List (String × String × String) :=
  [("profile_runtime", ("resource_monitor", "1.0")),
   ("filemanip_level", ("utils_level", "1.0"))]

/-- Deprecation message built in `NipypeConfig.get` and `NipypeConfig.set`
(same format string in both). -/
def deprecationMsg (opt ver new : String) : String :=
  "Config option \"" ++ opt ++ "\" has been deprecated as of nipype " ++ ver ++
    ". Please use \"" ++ new ++ "\" instead."

/-- Alias resolution block that the source duplicates verbatim at the top of
`NipypeConfig.get` and `NipypeConfig.set`: if the option is a deprecated
alias, warn and substitute the replacement name; otherwise leave it alone. -/
def resolve_option (opt : String) : String × List String :=
  match alookup CONFIG_DEPRECATIONS opt with
  | some nv => (nv.1, [deprecationMsg opt nv.2 nv.1])
  | none => (opt, [])

/-- Module-level `default_cfg` template, parsed into (section, option, value)
entries in file order.  The two interpolated paths are parameters: the
module computes them from the user home directory and the current working
directory when it is loaded. -/
def default_cfg (homedir cwd : String) : List (String × String × String) :=
  [("logging", "workflow_level", "INFO"),
   ("logging", "utils_level", "INFO"),
   ("logging", "interface_level", "INFO"),
   ("logging", "log_to_file", "false"),
   ("logging", "log_directory", homedir),
   ("logging", "log_size", "16384000"),
   ("logging", "log_rotate", "4"),
   ("execution", "create_report", "true"),
   ("execution", "crashdump_dir", cwd),
   ("execution", "display_variable", ":1"),
   ("execution", "hash_method", "timestamp"),
   ("execution", "job_finished_timeout", "5"),
   ("execution", "keep_inputs", "false"),
   ("execution", "local_hash_check", "true"),
   ("execution", "matplotlib_backend", "Agg"),
   ("execution", "plugin", "Linear"),
   ("execution", "remove_node_directories", "false"),
   ("execution", "remove_unnecessary_outputs", "true"),
   ("execution", "try_hard_link_datasink", "true"),
   ("execution", "single_thread_matlab", "true"),
   ("execution", "crashfile_format", "pklz"),
   ("execution", "stop_on_first_crash", "false"),
   ("execution", "stop_on_first_rerun", "false"),
   ("execution", "use_relative_paths", "false"),
   ("execution", "stop_on_unknown_version", "false"),
   ("execution", "write_provenance", "false"),
   ("execution", "parameterize_dirs", "true"),
   ("execution", "poll_sleep_duration", "2"),
   ("execution", "xvfb_max_wait", "10"),
   ("execution", "resource_monitor", "false"),
   ("execution", "resource_monitor_frequency", "1"),
   ("check", "interval", "1209600")]

/-- Closed list of the (section, option) keys of the default template,
independent of the two interpolated path values. -/
def default_cfg_keys : List (String × String) :=
  [("logging", "workflow_level"),
   ("logging", "utils_level"),
   ("logging", "interface_level"),
   ("logging", "log_to_file"),
   ("logging", "log_directory"),
   ("logging", "log_size"),
   ("logging", "log_rotate"),
   ("execution", "create_report"),
   ("execution", "crashdump_dir"),
   ("execution", "display_variable"),
   ("execution", "hash_method"),
   ("execution", "job_finished_timeout"),
   ("execution", "keep_inputs"),
   ("execution", "local_hash_check"),
   ("execution", "matplotlib_backend"),
   ("execution", "plugin"),
   ("execution", "remove_node_directories"),
   ("execution", "remove_unnecessary_outputs"),
   ("execution", "try_hard_link_datasink"),
   ("execution", "single_thread_matlab"),
   ("execution", "crashfile_format"),
   ("execution", "stop_on_first_crash"),
   ("execution", "stop_on_first_rerun"),
   ("execution", "use_relative_paths"),
   ("execution", "stop_on_unknown_version"),
   ("execution", "write_provenance"),
   ("execution", "parameterize_dirs"),
   ("execution", "poll_sleep_duration"),
   ("execution", "xvfb_max_wait"),
   ("execution", "resource_monitor"),
   ("execution", "resource_monitor_frequency"),
   ("check", "interval")]

/-- State of one `NipypeConfig` instance: the wrapped parser and the cached
tri-state resource-monitor flag (`None` / `False` / `True`). -/
structure NipypeConfig where
  _config : CPState
  _resource_monitor : Option Bool
deriving DecidableEq

/-- Value passed to `NipypeConfig.set`: a Python string, bool, or `None`
(the constructor-time migration pass passes the result of `get`, which can
be `None`). -/
inductive ConfigValue
  | pystr (s : String)
  | pybool (b : Bool)
  | pynone
deriving DecidableEq

/-- Python `str` of a bool, as applied by `NipypeConfig.set`. -/
def pyStrOfBool (b : Bool) : String := if b then "True" else "False"

/-- Conversion of a `ConfigValue` to the stored `PyVal`:
`NipypeConfig.set` stringifies bools; strings and `None` pass through. -/
def ConfigValue.toPyVal : ConfigValue → PyVal
  | .pystr s => some s
  | .pybool b => some (pyStrOfBool b)
  | .pynone => none

/-- Wrap a Python value (`None` or string) back into a `ConfigValue`. -/
def ConfigValue.ofPyVal : PyVal → ConfigValue
  | none => .pynone
  | some s => .pystr s

/-- Result of a Python call that normally returns a value (`None` or a
string) but may raise. -/
inductive PyResult
  | raised
  | val (v : PyVal)
deriving DecidableEq

/-- Method `NipypeConfig.get(section, option, default=None)`: resolve a
deprecated alias (warning), then return the stored value when
`_config.has_option` holds, else the caller-supplied default.  The first
component is `PyResult.raised` when the underlying parser read raises. -/
def NipypeConfig.get (c : NipypeConfig) (sec opt : String) (default : PyVal) :
    PyResult × List String :=
  let r := resolve_option opt
  if ConfigParser.has_option c._config sec r.1 then
    match ConfigParser.get c._config sec r.1 with
    | some v => (.val v, r.2)
    | none => (.raised, r.2)
  else (.val default, r.2)

/-- Method `NipypeConfig.set(section, option, value)`: stringify a bool,
resolve a deprecated alias (warning), then write through the parser.
The result is `none` when the parser raises `NoSectionError`. -/
def NipypeConfig.set (c : NipypeConfig) (sec opt : String) (value : ConfigValue) :
    Option NipypeConfig × List String :=
  let r := resolve_option opt
  match ConfigParser.set c._config sec r.1 value.toPyVal with
  | some cp => (some { c with _config := cp }, r.2)
  | none => (none, r.2)

/-- Method `NipypeConfig.getboolean(section, option)`: direct parser call,
no alias resolution, no default; `none` models a raised exception. -/
def NipypeConfig.getboolean (c : NipypeConfig) (sec opt : String) : Option Bool :=
  ConfigParser.getboolean c._config sec opt

/-- Method `NipypeConfig.has_option(section, option)`: direct parser call. -/
def NipypeConfig.has_option (c : NipypeConfig) (sec opt : String) : Bool :=
  ConfigParser.has_option c._config sec opt

/-- Method `NipypeConfig.set_default_config`: re-read the built-in default
template into the existing parser (merging overlay, not a reset). -/
def NipypeConfig.set_default_config (homedir cwd : String) (c : NipypeConfig) : NipypeConfig :=
  { c with _config := ConfigParser.read_file c._config (default_cfg homedir cwd) }

/-- Trigger condition of one step of the constructor's alias-migration pass
over the parser state: the deprecated option is present and its replacement
is not. -/
def migration_trigger (cp : CPState) (sec old new : String) : Bool :=
  ConfigParser.has_option cp sec old && ! ConfigParser.has_option cp sec new

/-- One step of the constructor's migration pass, for one deprecated option
and one section: when triggered, copy via `self.set(sec, new, self.get(sec,
old))` (both of which may warn; `get` does because `old` is deprecated).
`none` models a propagated exception (never reached from the constructor). -/
def migrate_one (sec old new : String) (st : NipypeConfig × List String) :
    Option (NipypeConfig × List String) :=
  if migration_trigger st.1._config sec old new then
    let g := st.1.get sec old none
    match g.1 with
    | .raised => none
    | .val pv =>
        let s := st.1.set sec new (ConfigValue.ofPyVal pv)
        match s.1 with
        | none => none
        | some c2 => some (c2, st.2 ++ g.2 ++ s.2)
  else some st

/-- Iteration space of the migration pass: for each deprecated option (in
table order), for each of the sections "execution" then "logging";
each element is (section, old name, new name). -/
def migration_combos : List (String × String × String) :=
  (CONFIG_DEPRECATIONS.map (fun d =>
    [("execution", d.1, d.2.1), ("logging", d.1, d.2.1)])).flatten

/-- Constructor `NipypeConfig.__init__`: seed the parser from the default
template, overlay the entries parsed from the on-disk configuration files
(empty when the configuration directory does not exist), initialise the
cached resource-monitor flag to unset, then run the alias-migration pass.
The returned list collects the deprecation warnings the pass emits. -/
def NipypeConfig.init (homedir cwd : String)
    (fileEntries : List (String × String × String)) :
    Option (NipypeConfig × List String) :=
  let cp := ConfigParser.read_file
    (ConfigParser.read_file { _defaults := [], _sections := [] } (default_cfg homedir cwd))
    fileEntries
  migration_combos.foldlM
    (fun st t => migrate_one t.1 t.2.1 t.2.2 st)
    (({ _config := cp, _resource_monitor := none } : NipypeConfig), ([] : List String))

/-- Warning list the migration pass is claimed to produce, characterised
directly on the parser state the pass starts from: one deprecation warning
per triggered (section, old, new) combination, in iteration order. -/
def migration_warning_list (cp : CPState) : List String :=
  ((migration_combos.filter (fun t => migration_trigger cp t.1 t.2.1 t.2.2)).map
    (fun t => (resolve_option t.2.1).2)).flatten

/-- Modelled from the spec: function "str2bool" from nipype.utils.misc, which
is imported by the module but whose source file is not among the provided
sources.  The spec describes it as permissive, case-folded recognition of the
common boolean spellings true/false/yes/no/1/0/on/off; an unrecognised string
is an error (modelled as "none", a raised ValueError). -/
def str2bool (s : String) : Option Bool :=
  let t := pyLower s
  if t = "true" ∨ t = "yes" ∨ t = "1" ∨ t = "on" then some true
  else if t = "false" ∨ t = "no" ∨ t = "0" ∨ t = "off" then some false
  else none

/-- Value assigned to the resource_monitor property: a Python bool, a string
(byte strings behave alike and are folded into this case), or any other
object, represented here by an integer (the identity tests "value is False" /
"value is True" are false for every non-bool, so one representative
constructor suffices; "pyint 1" models the Python integer 1). -/
inductive RMValue
  | pybool (b : Bool)
  | pystr (s : String)
  | pyint (n : Int)
deriving DecidableEq

/-- Ambient environment probed by the resource_monitor setter: whether the
optional dependency psutil can be imported, and the outcome of the comparison
LooseVersion(psutil.__version__) >= LooseVersion("5.0") when it can.  (An
unparsable version string raising inside the comparison is not modelled.) -/
structure Env where
  psutil_available : Bool
  psutil_version_ge5 : Bool
deriving DecidableEq

/-- String/byte-string coercion at the top of the resource_monitor setter:
value = str2bool(value.lower()) for strings; everything else unchanged.
A coercion failure ("none") is a raised ValueError. -/
def rm_coerce (v : RMValue) : Option RMValue :=
  match v with
  | .pystr s => (str2bool (pyLower s)).map RMValue.pybool
  | w => some w

/-- Warning emitted when the resource monitor cannot be enabled. -/
def psutil_warning : String :=
  "Could not enable the resource monitor: psutil>=5.0 could not be imported."

/-- Python ('%s' % b).lower() for a bool b, as persisted by the setter. -/
def pyLowerBoolStr (b : Bool) : String := if b then "true" else "false"

/-- Property setter `NipypeConfig.resource_monitor`: coerce strings through
str2bool; on `False` just cache `False`; on `True`, only when the cache is
not already `True`, probe psutil (requiring version >= 5.0), cache the
outcome, warn when the probe failed, and persist the lower-cased outcome into
execution.resource_monitor; on any non-bool non-string value do nothing.
`none` models a propagated exception. -/
def NipypeConfig.resource_monitor_set (env : Env) (c : NipypeConfig) (value : RMValue) :
    Option (NipypeConfig × List String) :=
  match rm_coerce value with
  | none => none
  | some (.pybool false) => some ({ c with _resource_monitor := some false }, [])
  | some (.pybool true) =>
      if c._resource_monitor = some true then some (c, [])
      else
        let rm : Bool := env.psutil_available && env.psutil_version_ge5
        let ws : List String := if rm then [] else [psutil_warning]
        match ConfigParser.set c._config "execution" "resource_monitor"
            (some (pyLowerBoolStr rm)) with
        | none => none
        | some cp => some ({ _config := cp, _resource_monitor := some rm }, ws)
  | some _ => some (c, [])

/-- Property getter `NipypeConfig.resource_monitor`: return the cached flag
when settled; otherwise read execution.resource_monitor through the raw
parser (which raises when absent), apply Python "or False" (a falsy value,
None or the empty string, becomes the bool False), assign through the setter,
and return the settled attribute.  The first component of the result is the
returned Python attribute (None or bool); outer `none` models a propagated
exception. -/
def NipypeConfig.resource_monitor_get (env : Env) (c : NipypeConfig) :
    Option (Option Bool × NipypeConfig × List String) :=
  match c._resource_monitor with
  | some b => some (some b, c, [])
  | none =>
      match ConfigParser.get c._config "execution" "resource_monitor" with
      | none => none
      | some stored =>
          let v : RMValue :=
            match stored with
            | none => .pybool false
            | some s => if s = "" then .pybool false else .pystr s
          match c.resource_monitor_set env v with
          | none => none
          | some (c2, ws) => some (c2._resource_monitor, c2, ws)

/-- Method `NipypeConfig.enable_resource_monitor`: assign `True` through the
property setter. -/
def NipypeConfig.enable_resource_monitor (env : Env) (c : NipypeConfig) :
    Option (NipypeConfig × List String) :=
  c.resource_monitor_set env (.pybool true)

/-- JSON value, the domain of the auxiliary data file (spec: arbitrary
JSON-serialisable values; "null" is Python None). -/
inductive JValue
  | null
  | jbool (b : Bool)
  | jnum (n : Int)
  | jstr (s : String)
  | jarr (xs : List JValue)
  | jobj (kvs : List (String × JValue))

/-- Parsed contents of the data file: a top-level JSON object. -/
abbrev JObj := List (String × JValue)

/-- Method `NipypeConfig.get_data(key)`: None when the data file does not
exist; otherwise the value stored under the key, or None when absent.  The
file's parsed contents are a parameter ("none" = file absent); simplejson
load/dump round-trips the mapping, so the on-disk bytes are elided.  The
advisory file lock only serialises concurrent access and is invisible in
this single-process model. -/
def NipypeConfig.get_data (datafile : Option JObj) (key : String) : JValue :=
  match datafile with
  | none => .null
  | some d => (alookup d key).getD .null

/-- Method `NipypeConfig.save_data(key, value)`: start from the parsed
existing mapping (empty when the file does not exist), set the key, and
write the full mapping back; the result is the new file contents.
Directory creation (mkdir_p) has no observable effect on the mapping. -/
def NipypeConfig.save_data (datafile : Option JObj) (key : String) (value : JValue) : JObj :=
  aset (datafile.getD []) key value

/-! Association-list lemmas. -/

theorem alookup_aset_self {α : Type} (m : List (String × α)) (k : String) (v : α) :
    alookup (aset m k v) k = some v := by
  induction m with
  | nil => simp [aset, alookup]
  | cons p rest ih =>
      obtain ⟨k', v'⟩ := p
      by_cases h : k' = k
      · simp [aset, alookup, h]
      · simp [aset, alookup, h, ih]

theorem alookup_aset_ne {α : Type} (m : List (String × α)) (k k' : String) (v : α)
    (h : k' ≠ k) : alookup (aset m k v) k' = alookup m k' := by
  induction m with
  | nil => simp [aset, alookup, Ne.symm h]
  | cons p rest ih =>
      obtain ⟨k1, v1⟩ := p
      by_cases h1 : k1 = k
      · subst h1
        simp [aset, alookup, Ne.symm h]
      · simp [aset, alookup, h1, ih]

/-- C7: for every prior state of the data file, every key and every
JSON-representable value, save_data followed by get_data on the same key
returns the stored value (round-trip through the serialised mapping). -/
theorem save_data_get_data_roundtrip (f : Option JObj) (k : String) (v : JValue) :
    NipypeConfig.get_data (some (NipypeConfig.save_data f k v)) k = v := by
  simp [NipypeConfig.get_data, NipypeConfig.save_data, alookup_aset_self]

/-- C9: assigning the resource_monitor property a value that is neither a
bool nor a string (represented by a Python integer, for example 1) is a
complete silent no-op: no cache change, no settings change, no warning,
independent of the environment. -/
theorem resource_monitor_set_other_noop (env : Env) (c : NipypeConfig) (n : Int) :
    NipypeConfig.resource_monitor_set env c (.pyint n) = some (c, []) := by
  simp [NipypeConfig.resource_monitor_set, rm_coerce]

/-- C8: every assignment whose value coerces to the bool False caches False
and does nothing else: no probe (the environment is irrelevant), no warning,
and the settings tree inside the state is untouched. -/
theorem resource_monitor_set_false (env : Env) (c : NipypeConfig) (v : RMValue)
    (h : rm_coerce v = some (.pybool false)) :
    NipypeConfig.resource_monitor_set env c v =
      some ({ c with _resource_monitor := some false }, []) := by
  simp [NipypeConfig.resource_monitor_set, h]

theorem resource_monitor_set_false_witness :
    NipypeConfig.resource_monitor_set
        { psutil_available := false, psutil_version_ge5 := false }
        { _config := { _defaults := [], _sections := [("execution", [("resource_monitor", some "true")])] },
          _resource_monitor := none }
        (.pystr "False") =
      some ({ _config := { _defaults := [], _sections := [("execution", [("resource_monitor", some "true")])] },
              _resource_monitor := some false }, []) :=
  resource_monitor_set_false _ _ _ (by decide)

/-- C2 (amended): when the cached resource-monitor state is already True,
assigning a value coercing to True is a complete no-op: the cache keeps True
and, contrary to the claim, nothing is written into the settings tree and no
warning is emitted. -/
theorem resource_monitor_set_true_cached_noop (env : Env) (c : NipypeConfig) (v : RMValue)
    (h1 : c._resource_monitor = some true) (h2 : rm_coerce v = some (.pybool true)) :
    NipypeConfig.resource_monitor_set env c v = some (c, []) := by
  simp [NipypeConfig.resource_monitor_set, h1, h2]

theorem resource_monitor_set_true_cached_noop_witness :
    NipypeConfig.resource_monitor_set
        { psutil_available := true, psutil_version_ge5 := true }
        { _config := { _defaults := [], _sections := [("execution", [("resource_monitor", some "false")])] },
          _resource_monitor := some true }
        (.pybool true) =
      some ({ _config := { _defaults := [], _sections := [("execution", [("resource_monitor", some "false")])] },
              _resource_monitor := some true }, []) :=
  resource_monitor_set_true_cached_noop _ _ _ rfl (by decide)

/-- C2 counterexample: a store cached True whose settings hold
execution.resource_monitor = "false"; re-assigning True leaves the stored
string "false" — the lower-cased resolved boolean "true" is NOT written,
because the persisting branch is guarded by the not-already-cached test. -/
theorem resource_monitor_set_true_cached_counterexample :
    NipypeConfig.resource_monitor_set
        { psutil_available := true, psutil_version_ge5 := true }
        { _config := { _defaults := [], _sections := [("execution", [("resource_monitor", some "false")])] },
          _resource_monitor := some true }
        (.pybool true) =
      some ({ _config := { _defaults := [], _sections := [("execution", [("resource_monitor", some "false")])] },
              _resource_monitor := some true }, []) ∧
    ConfigParser.get
        { _defaults := [], _sections := [("execution", [("resource_monitor", some "false")])] }
        "execution" "resource_monitor" = some (some "false") := by
  exact ⟨by decide, by decide⟩

/-- C5 (amended): on the first read of resource_monitor with the cache unset,
a falsy stored value (Python None or the empty string) yields False, and a
stored string coercing to False yields False, both settling the cache; but an
absent option makes the read raise (the raw parser get has no fallback),
rather than returning False. -/
theorem resource_monitor_get_unset (env : Env) (c : NipypeConfig)
    (h : c._resource_monitor = none) :
    (ConfigParser.get c._config "execution" "resource_monitor" = none →
        NipypeConfig.resource_monitor_get env c = none) ∧
    (∀ pv, ConfigParser.get c._config "execution" "resource_monitor" = some pv →
        pv = none ∨ pv = some "" →
        NipypeConfig.resource_monitor_get env c =
          some (some false, { c with _resource_monitor := some false }, [])) ∧
    (∀ s, ConfigParser.get c._config "execution" "resource_monitor" = some (some s) →
        s ≠ "" → str2bool (pyLower s) = some false →
        NipypeConfig.resource_monitor_get env c =
          some (some false, { c with _resource_monitor := some false }, [])) := by
  refine ⟨fun hg => ?_, fun pv hg hf => ?_, fun s hg hs hb => ?_⟩
  · simp [NipypeConfig.resource_monitor_get, h, hg]
  · rcases hf with rfl | rfl <;>
      simp [NipypeConfig.resource_monitor_get, h, hg,
        NipypeConfig.resource_monitor_set, rm_coerce]
  · simp [NipypeConfig.resource_monitor_get, h, hg, hs,
      NipypeConfig.resource_monitor_set, rm_coerce, hb]

theorem resource_monitor_get_unset_witness :
    NipypeConfig.resource_monitor_get
        { psutil_available := true, psutil_version_ge5 := true }
        { _config := { _defaults := [], _sections := [("execution", [("resource_monitor", some "")])] },
          _resource_monitor := none } =
      some (some false,
        { _config := { _defaults := [], _sections := [("execution", [("resource_monitor", some "")])] },
          _resource_monitor := some false }, []) :=
  (resource_monitor_get_unset _ _ rfl).2.1 (some "") (by decide) (Or.inr rfl)

/-- C5 counterexample: with the cache unset and execution.resource_monitor
absent from the settings tree, the first read raises (propagated
NoOptionError from the raw parser get) instead of returning False. -/
theorem resource_monitor_get_absent_raises :
    NipypeConfig.resource_monitor_get
        { psutil_available := true, psutil_version_ge5 := true }
        { _config := { _defaults := [], _sections := [("execution", [])] },
          _resource_monitor := none } = none := by
  decide

/-- C3 (amended): for every boolean, every option name that is not a
deprecated alias, and every section other than the empty string, a
successful set of the boolean followed by getboolean on the same names
returns the original boolean.  For the reserved section name DEFAULT, which
addresses the parser-defaults layer, this is shown under the invariant that
no section literally named DEFAULT exists in the parser's section table: no
operation of the module ever creates one, so it holds of every reachable
state. -/
theorem set_getboolean_roundtrip (c c' : NipypeConfig) (sec opt : String) (b : Bool)
    (ws : List String)
    (hsec1 : sec ≠ "")
    (hdefsec : sec = "DEFAULT" → alookup c._config._sections "DEFAULT" = none)
    (hopt : alookup CONFIG_DEPRECATIONS opt = none)
    (hset : NipypeConfig.set c sec opt (.pybool b) = (some c', ws)) :
    NipypeConfig.getboolean c' sec opt = some b := by
  have hb : ConfigParser.convert_to_boolean (some (pyStrOfBool b)) = some b := by
    cases b <;> decide
  by_cases hd : sec = "DEFAULT"
  · subst hd
    have hnone := hdefsec rfl
    simp only [NipypeConfig.set, resolve_option, hopt, ConfigValue.toPyVal,
      ConfigParser.set, or_true, if_true] at hset
    simp only [Prod.mk.injEq, Option.some.injEq] at hset
    obtain ⟨hc', -⟩ := hset
    subst hc'
    simp [NipypeConfig.getboolean, ConfigParser.getboolean, ConfigParser.get,
      hnone, alookup_aset_self, hb]
  · simp only [NipypeConfig.set, resolve_option, hopt, ConfigValue.toPyVal,
      ConfigParser.set, hsec1, hd, or_self, if_false, false_or, if_neg,
      not_false_iff] at hset
    rcases hm : alookup c._config._sections sec with _ | m
    · rw [hm] at hset
      simp at hset
    · rw [hm] at hset
      simp only [Prod.mk.injEq, Option.some.injEq] at hset
      obtain ⟨hc', -⟩ := hset
      subst hc'
      simp [NipypeConfig.getboolean, ConfigParser.getboolean, ConfigParser.get,
        alookup_aset_self, Option.orElse, hb]

theorem set_getboolean_roundtrip_witness :
    NipypeConfig.getboolean
        { _config := { _defaults := [], _sections := [("execution", [("myflag", some "True")])] },
          _resource_monitor := none }
        "execution" "myflag" = some true ∧
    NipypeConfig.getboolean
        { _config := { _defaults := [("myflag", some "True")], _sections := [] },
          _resource_monitor := none }
        "DEFAULT" "myflag" = some true :=
  ⟨set_getboolean_roundtrip
    { _config := { _defaults := [], _sections := [("execution", [])] }, _resource_monitor := none }
    { _config := { _defaults := [], _sections := [("execution", [("myflag", some "True")])] },
      _resource_monitor := none }
    "execution" "myflag" true [] (by decide) (by decide) (by decide) (by decide),
   set_getboolean_roundtrip
    { _config := { _defaults := [], _sections := [] }, _resource_monitor := none }
    { _config := { _defaults := [("myflag", some "True")], _sections := [] },
      _resource_monitor := none }
    "DEFAULT" "myflag" true [] (by decide) (by decide) (by decide) (by decide)⟩

/-- C3 counterexample, two parts.  First: set applies the deprecated-alias
substitution but getboolean does not, so setting True under the deprecated
name "profile_runtime" stores it under "resource_monitor" and the subsequent
getboolean on "profile_runtime" raises (returns no boolean at all) instead
of returning True.  Second: a set with the empty-string section name
succeeds (it writes into the parser defaults) yet getboolean with that
section name raises NoSectionError. -/
theorem set_getboolean_roundtrip_counterexample :
    (NipypeConfig.set
        { _config := { _defaults := [], _sections := [("execution", [])] }, _resource_monitor := none }
        "execution" "profile_runtime" (.pybool true) =
      (some { _config := { _defaults := [], _sections := [("execution", [("resource_monitor", some "True")])] },
              _resource_monitor := none },
       [deprecationMsg "profile_runtime" "1.0" "resource_monitor"]) ∧
     NipypeConfig.getboolean
        { _config := { _defaults := [], _sections := [("execution", [("resource_monitor", some "True")])] },
          _resource_monitor := none }
        "execution" "profile_runtime" = none) ∧
    (NipypeConfig.set
        { _config := { _defaults := [], _sections := [("execution", [])] }, _resource_monitor := none }
        "" "newopt" (.pybool true) =
      (some { _config := { _defaults := [("newopt", some "True")], _sections := [("execution", [])] },
              _resource_monitor := none }, []) ∧
     NipypeConfig.getboolean
        { _config := { _defaults := [("newopt", some "True")], _sections := [("execution", [])] },
          _resource_monitor := none }
        "" "newopt" = none) := by
  exact ⟨⟨by decide, by decide⟩, ⟨by decide, by decide⟩⟩

/-- C4 (amended): option names are case-insensitive, not case-sensitive: the
parser lower-cases them, so after a successful set under a name, a get under
any name with the same lower-casing observes the written value (shown for
non-deprecated names and a section other than the empty string and DEFAULT).
Section names, in contrast, are case-sensitive: the write leaves reads of
every other section name, including case variants, unchanged. -/
theorem option_names_case_insensitive (c c' : NipypeConfig) (sec opt opt' v : String)
    (ws : List String)
    (hsec1 : sec ≠ "") (hsec2 : sec ≠ "DEFAULT")
    (hd1 : alookup CONFIG_DEPRECATIONS opt = none)
    (hd2 : alookup CONFIG_DEPRECATIONS opt' = none)
    (hx : ConfigParser.optionxform opt' = ConfigParser.optionxform opt)
    (hset : NipypeConfig.set c sec opt (.pystr v) = (some c', ws)) :
    (NipypeConfig.get c' sec opt' none).1 = .val (some v) ∧
    (∀ sec2 opt2 d2, sec2 ≠ sec →
        NipypeConfig.get c' sec2 opt2 d2 = NipypeConfig.get c sec2 opt2 d2) := by
  simp only [NipypeConfig.set, resolve_option, hd1, ConfigValue.toPyVal,
    ConfigParser.set, hsec1, hsec2, or_self, if_false, false_or, if_neg,
    not_false_iff] at hset
  rcases hm : alookup c._config._sections sec with _ | m
  · rw [hm] at hset
    simp at hset
  · rw [hm] at hset
    simp only [Prod.mk.injEq, Option.some.injEq] at hset
    obtain ⟨hc', -⟩ := hset
    subst hc'
    constructor
    · simp [NipypeConfig.get, resolve_option, hd2, ConfigParser.has_option,
        ConfigParser.get, hsec1, hsec2, hx, alookup_aset_self, Option.orElse]
    · intro sec2 opt2 d2 hne
      have hs : alookup (aset c._config._sections sec
          (aset m (ConfigParser.optionxform opt) (some v))) sec2 =
          alookup c._config._sections sec2 :=
        alookup_aset_ne _ _ _ _ hne
      simp [NipypeConfig.get, ConfigParser.has_option, ConfigParser.get, hs]

theorem option_names_case_insensitive_witness :
    (NipypeConfig.get
        { _config := { _defaults := [], _sections := [("execution", [("myopt", some "v")])] },
          _resource_monitor := none }
        "execution" "myopt" none).1 = .val (some "v") ∧
    NipypeConfig.get
        { _config := { _defaults := [], _sections := [("execution", [("myopt", some "v")])] },
          _resource_monitor := none }
        "logging" "x" none =
      NipypeConfig.get
        { _config := { _defaults := [], _sections := [("execution", [])] },
          _resource_monitor := none }
        "logging" "x" none := by
  refine ⟨(option_names_case_insensitive
      { _config := { _defaults := [], _sections := [("execution", [])] }, _resource_monitor := none }
      { _config := { _defaults := [], _sections := [("execution", [("myopt", some "v")])] },
        _resource_monitor := none }
      "execution" "MyOpt" "myopt" "v" [] (by decide) (by decide) (by decide) (by decide)
      (by decide) (by decide)).1, ?_⟩
  exact (option_names_case_insensitive
      { _config := { _defaults := [], _sections := [("execution", [])] }, _resource_monitor := none }
      { _config := { _defaults := [], _sections := [("execution", [("myopt", some "v")])] },
        _resource_monitor := none }
      "execution" "MyOpt" "myopt" "v" [] (by decide) (by decide) (by decide) (by decide)
      (by decide) (by decide)).2 "logging" "x" none (by decide)

/-- Parser reads succeed wherever has_option holds, except for the
empty-string section name (has_option then consults `_defaults` while get
raises unless an empty-named section exists). -/
theorem get_isSome_of_has_option (st : CPState) (sec opt : String)
    (hsec : sec ≠ "") (h : ConfigParser.has_option st sec opt = true) :
    ∃ v, ConfigParser.get st sec opt = some v := by
  by_cases hdd : sec = "" ∨ sec = "DEFAULT"
  · have hDef : sec = "DEFAULT" := by
      rcases hdd with h1 | h1
      · exact absurd h1 hsec
      · exact h1
    subst hDef
    simp only [ConfigParser.has_option, or_true, if_true, if_pos] at h
    obtain ⟨v, hv⟩ := Option.isSome_iff_exists.mp h
    rcases hm : alookup st._sections "DEFAULT" with _ | m
    · exact ⟨v, by simp [ConfigParser.get, hm, hv]⟩
    · rcases hw : alookup m (ConfigParser.optionxform opt) with _ | w
      · exact ⟨v, by simp [ConfigParser.get, hm, Option.orElse, hw, hv]⟩
      · exact ⟨w, by simp [ConfigParser.get, hm, Option.orElse, hw]⟩
  · simp only [ConfigParser.has_option, if_neg hdd] at h
    rcases hm : alookup st._sections sec with _ | m
    · simp [hm] at h
    · simp only [hm] at h
      have hor : ((alookup m (ConfigParser.optionxform opt)).isSome ||
          (alookup st._defaults (ConfigParser.optionxform opt)).isSome) = true := h
      rcases hw : alookup m (ConfigParser.optionxform opt) with _ | w
      · rw [hw] at hor
        simp only [Option.isSome_none, Bool.false_or] at hor
        obtain ⟨v, hv⟩ := Option.isSome_iff_exists.mp hor
        exact ⟨v, by simp [ConfigParser.get, hm, Option.orElse, hw, hv]⟩
      · exact ⟨w, by simp [ConfigParser.get, hm, Option.orElse, hw]⟩

/-- C6 (amended): for every non-empty section name, get never raises: after
alias substitution it returns the stored value when the parser has the
option, and the caller-supplied default unchanged otherwise.  For the
empty-string section name the underlying lookup raises NoSectionError
whenever the substituted option exists among the parser-level defaults and
no empty-named section exists. -/
theorem get_returns_stored_or_default (c : NipypeConfig) (sec opt : String) (d : PyVal) :
    (sec ≠ "" →
      (NipypeConfig.get c sec opt d).1 ≠ .raised ∧
      (ConfigParser.has_option c._config sec (resolve_option opt).1 = true →
        ∃ v, ConfigParser.get c._config sec (resolve_option opt).1 = some v ∧
          (NipypeConfig.get c sec opt d).1 = .val v) ∧
      (ConfigParser.has_option c._config sec (resolve_option opt).1 = false →
        (NipypeConfig.get c sec opt d).1 = .val d)) ∧
    (sec = "" → alookup c._config._sections "" = none →
      ConfigParser.has_option c._config sec (resolve_option opt).1 = true →
      (NipypeConfig.get c sec opt d).1 = .raised) := by
  constructor
  · intro hsec
    by_cases hh : ConfigParser.has_option c._config sec (resolve_option opt).1 = true
    · obtain ⟨v, hv⟩ := get_isSome_of_has_option _ _ _ hsec hh
      have hval : (NipypeConfig.get c sec opt d).1 = .val v := by
        simp [NipypeConfig.get, hh, hv]
      exact ⟨by simp [hval], fun _ => ⟨v, hv, hval⟩, fun hf => by simp [hh] at hf⟩
    · have hf : ConfigParser.has_option c._config sec (resolve_option opt).1 = false :=
        Bool.eq_false_iff.mpr (fun hb => hh hb)
      have hval : (NipypeConfig.get c sec opt d).1 = .val d := by
        simp [NipypeConfig.get, hf]
      exact ⟨by simp [hval], fun ht => absurd ht hh, fun _ => hval⟩
  · intro hsec hnone hh
    subst hsec
    simp [NipypeConfig.get, hh, ConfigParser.get, hnone]

theorem get_returns_stored_or_default_witness :
    (NipypeConfig.get
        { _config := { _defaults := [], _sections := [("execution", [("plugin", some "Linear")])] },
          _resource_monitor := none }
        "unknownsection" "whatever" (some "fallback")).1 = .val (some "fallback") :=
  ((get_returns_stored_or_default
      { _config := { _defaults := [], _sections := [("execution", [("plugin", some "Linear")])] },
        _resource_monitor := none }
      "unknownsection" "whatever" (some "fallback")).1 (by decide)).2.2 (by decide)

/-- C6 counterexample: with an option present in the parser-level defaults,
a get under the empty-string section name raises NoSectionError (propagated
through the raw parser read behind the has_option guard) instead of
returning the stored value or the default. -/
theorem get_empty_section_raises :
    (NipypeConfig.get
        { _config := { _defaults := [("foo", some "1")], _sections := [] },
          _resource_monitor := none }
        "" "foo" (some "fallback")).1 = .raised := by
  decide

/-- C4 counterexample: writing under the mixed-case name "MyOpt" and reading
under the lower-case name "myopt" — never set independently — observes the
written value, because the parser lower-cases option names on both paths;
option names differing only in letter case address the same option. -/
theorem option_names_case_counterexample :
    NipypeConfig.set
        { _config := { _defaults := [], _sections := [("execution", [])] }, _resource_monitor := none }
        "execution" "MyOpt" (.pystr "v") =
      (some { _config := { _defaults := [], _sections := [("execution", [("myopt", some "v")])] },
              _resource_monitor := none }, []) ∧
    (NipypeConfig.get
        { _config := { _defaults := [], _sections := [("execution", [("myopt", some "v")])] },
          _resource_monitor := none }
        "execution" "myopt" none).1 = .val (some "v") := by
  exact ⟨by decide, by decide⟩

/-- Lookup distributes over list append (first list wins). -/
theorem alookup_append {α : Type} (l1 l2 : List (String × α)) (key : String) :
    alookup (l1 ++ l2) key = (alookup l1 key).orElse (fun _ => alookup l2 key) := by
  induction l1 with
  | nil => simp [alookup, Option.orElse]
  | cons p rest ih =>
      obtain ⟨k, v⟩ := p
      by_cases h : k = key
      · simp [alookup, h, Option.orElse]
      · simp [alookup, h, ih]

/-- Reading one entry leaves every section/option slot other than the
entry's own slot unchanged. -/
theorem sect_lookup_read_entry_ne (st : CPState) (e : String × String × String)
    (sec x : String) (h : ¬(e.1 = sec ∧ ConfigParser.optionxform e.2.1 = x)) :
    ConfigParser.sect_lookup (ConfigParser.read_entry st e) sec x =
      ConfigParser.sect_lookup st sec x := by
  obtain ⟨s0, o0, v0⟩ := e
  unfold ConfigParser.read_entry
  by_cases hd0 : s0 = "DEFAULT"
  · simp [hd0, ConfigParser.sect_lookup]
  · simp only [hd0, if_false]
    rcases hm : alookup st._sections s0 with _ | m
    · simp only [ConfigParser.sect_lookup, alookup_append]
      by_cases hss : s0 = sec
      · subst hss
        rw [hm]
        have hx : ConfigParser.optionxform o0 ≠ x := fun hh => h ⟨rfl, hh⟩
        simp [alookup, Option.orElse, hx]
      · rcases hS : alookup st._sections sec with _ | msec
        · simp [hS, alookup, Option.orElse, hss]
        · simp [hS, alookup, Option.orElse]
    · simp only [ConfigParser.sect_lookup]
      by_cases hss : s0 = sec
      · subst hss
        rw [alookup_aset_self, hm]
        have hx : ConfigParser.optionxform o0 ≠ x := fun hh => h ⟨rfl, hh⟩
        simp [alookup_aset_ne _ _ _ _ (Ne.symm hx)]
      · rw [alookup_aset_ne _ _ _ _ (Ne.symm hss)]

/-- Reading a file leaves every slot not named by any of its entries
unchanged. -/
theorem sect_lookup_read_file_ne (es : List (String × String × String)) (st : CPState)
    (sec x : String)
    (h : ∀ e ∈ es, ¬(e.1 = sec ∧ ConfigParser.optionxform e.2.1 = x)) :
    ConfigParser.sect_lookup (ConfigParser.read_file st es) sec x =
      ConfigParser.sect_lookup st sec x := by
  revert h
  induction es generalizing st with
  | nil => intro _; rfl
  | cons e rest ih =>
      intro h
      rw [show ConfigParser.read_file st (e :: rest) =
            ConfigParser.read_file (ConfigParser.read_entry st e) rest from rfl]
      rw [ih _ (fun e' he' => h e' (List.mem_cons_of_mem _ he')),
        sect_lookup_read_entry_ne st e sec x (h e (List.mem_cons_self _ _))]

/-- Reading one non-DEFAULT entry does not touch the parser defaults. -/
theorem read_entry_defaults_ne (st : CPState) (e : String × String × String)
    (h : e.1 ≠ "DEFAULT") :
    (ConfigParser.read_entry st e)._defaults = st._defaults := by
  obtain ⟨s0, o0, v0⟩ := e
  unfold ConfigParser.read_entry
  simp only at h
  rcases hm : alookup st._sections s0 with _ | m <;> simp [h, hm]

/-- Reading a file without DEFAULT entries does not touch the parser
defaults. -/
theorem read_file_defaults_eq (es : List (String × String × String)) (st : CPState)
    (h : ∀ e ∈ es, e.1 ≠ "DEFAULT") :
    (ConfigParser.read_file st es)._defaults = st._defaults := by
  revert h
  induction es generalizing st with
  | nil => intro _; rfl
  | cons e rest ih =>
      intro h
      rw [show ConfigParser.read_file st (e :: rest) =
            ConfigParser.read_file (ConfigParser.read_entry st e) rest from rfl]
      rw [ih _ (fun e' he' => h e' (List.mem_cons_of_mem _ he')),
        read_entry_defaults_ne st e (h e (List.mem_cons_self _ _))]

/-- After reading a file whose (section, transformed option) keys are
pairwise distinct, every one of its entries is stored at its slot. -/
theorem sect_lookup_read_file_mem (es : List (String × String × String)) (st : CPState)
    (sec opt v : String) (hmem : (sec, opt, v) ∈ es)
    (huniq : (es.map (fun e => (e.1, ConfigParser.optionxform e.2.1))).Nodup)
    (hdef : sec ≠ "DEFAULT") :
    ConfigParser.sect_lookup (ConfigParser.read_file st es) sec
      (ConfigParser.optionxform opt) = some (some v) := by
  revert hmem huniq
  induction es generalizing st with
  | nil =>
      intro hmem _
      cases hmem
  | cons e rest ih =>
      intro hmem huniq
      rw [show ConfigParser.read_file st (e :: rest) =
            ConfigParser.read_file (ConfigParser.read_entry st e) rest from rfl]
      rcases List.mem_cons.mp hmem with heq | hmem'
      · subst heq
        have hnotin : ∀ e' ∈ rest,
            ¬(e'.1 = sec ∧ ConfigParser.optionxform e'.2.1 = ConfigParser.optionxform opt) := by
          intro e' he' hcontra
          have hmm : (sec, ConfigParser.optionxform opt) ∈
              rest.map (fun e => (e.1, ConfigParser.optionxform e.2.1)) :=
            List.mem_map.mpr ⟨e', he', by rw [hcontra.1, hcontra.2]⟩
          exact (List.nodup_cons.mp huniq).1 hmm
        rw [sect_lookup_read_file_ne rest _ sec _ hnotin]
        unfold ConfigParser.read_entry
        simp only [hdef, if_false]
        rcases hm : alookup st._sections sec with _ | m
        · simp [ConfigParser.sect_lookup, alookup_append, hm, alookup, Option.orElse]
        · simp [ConfigParser.sect_lookup, alookup_aset_self, hm]
      · exact ih _ hmem' (List.nodup_cons.mp huniq).2

/-- A dictionary-level hit implies the chained parser read returns it. -/
theorem get_of_sect_lookup (st : CPState) (sec opt : String) (w : PyVal)
    (h : ConfigParser.sect_lookup st sec (ConfigParser.optionxform opt) = some w) :
    ConfigParser.get st sec opt = some w := by
  unfold ConfigParser.sect_lookup at h
  unfold ConfigParser.get
  rcases hm : alookup st._sections sec with _ | m
  · rw [hm] at h
    simp at h
  · rw [hm] at h
    simp only [Option.bind_eq_bind, Option.some_bind] at h
    simp [h, Option.orElse]

/-- The key projection of the default template is the closed key list,
whatever the two interpolated path values are. -/
theorem default_cfg_keys_eq (hd cwd : String) :
    (default_cfg hd cwd).map (fun e => (e.1, ConfigParser.optionxform e.2.1)) =
      default_cfg_keys := rfl

/-- No section of the default template is named DEFAULT. -/
theorem default_cfg_sec_ne_DEFAULT (hd cwd : String) :
    ∀ e ∈ default_cfg hd cwd, e.1 ≠ "DEFAULT" := by
  intro e he
  have hk : (e.1, ConfigParser.optionxform e.2.1) ∈ default_cfg_keys := by
    rw [← default_cfg_keys_eq hd cwd]
    exact List.mem_map.mpr ⟨e, he, rfl⟩
  have hall : ∀ p ∈ default_cfg_keys, p.1 ≠ "DEFAULT" := by decide
  exact hall _ hk

/-- Key list of the default template has no duplicate (section, option)
pair. -/
theorem default_cfg_keys_nodup : default_cfg_keys.Nodup := by
  simp [default_cfg_keys]

/-- C10: set_default_config overlays the built-in default template onto the
current settings tree without clearing it: afterwards every section/option
of the template holds its template value, every slot not named by the
template keeps its prior state, and the parser defaults are untouched. -/
theorem set_default_config_overlay (hd cwd : String) (c : NipypeConfig) :
    (∀ sec opt v, (sec, opt, v) ∈ default_cfg hd cwd →
        ConfigParser.get (NipypeConfig.set_default_config hd cwd c)._config sec opt =
          some (some v)) ∧
    (∀ sec x, (∀ e ∈ default_cfg hd cwd, ¬(e.1 = sec ∧ ConfigParser.optionxform e.2.1 = x)) →
        ConfigParser.sect_lookup (NipypeConfig.set_default_config hd cwd c)._config sec x =
          ConfigParser.sect_lookup c._config sec x) ∧
    (NipypeConfig.set_default_config hd cwd c)._config._defaults = c._config._defaults := by
  refine ⟨?_, ?_, ?_⟩
  · intro sec opt v hmem
    have hdef : sec ≠ "DEFAULT" := default_cfg_sec_ne_DEFAULT hd cwd _ hmem
    have huniq : ((default_cfg hd cwd).map
        (fun e => (e.1, ConfigParser.optionxform e.2.1))).Nodup := by
      rw [default_cfg_keys_eq]
      exact default_cfg_keys_nodup
    simp only [NipypeConfig.set_default_config]
    exact get_of_sect_lookup _ _ _ _
      (sect_lookup_read_file_mem (default_cfg hd cwd) c._config sec opt v hmem huniq hdef)
  · intro sec x hnone
    simp only [NipypeConfig.set_default_config]
    exact sect_lookup_read_file_ne _ _ _ _ hnone
  · simp only [NipypeConfig.set_default_config]
    exact read_file_defaults_eq _ _ (default_cfg_sec_ne_DEFAULT hd cwd)

theorem set_default_config_overlay_witness :
    ConfigParser.get
      (NipypeConfig.set_default_config "h" "c"
        { _config := { _defaults := [], _sections := [("execution", [("custom_opt", some "keep")])] },
          _resource_monitor := none })._config "execution" "plugin" = some (some "Linear") ∧
    ConfigParser.sect_lookup
      (NipypeConfig.set_default_config "h" "c"
        { _config := { _defaults := [], _sections := [("execution", [("custom_opt", some "keep")])] },
          _resource_monitor := none })._config "execution" "custom_opt" =
      ConfigParser.sect_lookup
        ({ _defaults := [], _sections := [("execution", [("custom_opt", some "keep")])] } : CPState)
        "execution" "custom_opt" := by
  refine ⟨(set_default_config_overlay "h" "c"
      { _config := { _defaults := [], _sections := [("execution", [("custom_opt", some "keep")])] },
        _resource_monitor := none }).1 "execution" "plugin" "Linear" (by decide), ?_⟩
  exact (set_default_config_overlay "h" "c"
      { _config := { _defaults := [], _sections := [("execution", [("custom_opt", some "keep")])] },
        _resource_monitor := none }).2.1 "execution" "custom_opt" (by decide)

/-- Equation for has_option on an existing regular section. -/
theorem has_option_normal (st : CPState) (sec opt : String)
    (hdd : ¬(sec = "" ∨ sec = "DEFAULT")) (m : List (String × PyVal))
    (hm : alookup st._sections sec = some m) :
    ConfigParser.has_option st sec opt =
      ((alookup m (ConfigParser.optionxform opt)).isSome ||
        (alookup st._defaults (ConfigParser.optionxform opt)).isSome) := by
  unfold ConfigParser.has_option
  rw [if_neg hdd, hm]

/-- Equation for has_option on a missing regular section. -/
theorem has_option_missing (st : CPState) (sec opt : String)
    (hdd : ¬(sec = "" ∨ sec = "DEFAULT"))
    (hm : alookup st._sections sec = none) :
    ConfigParser.has_option st sec opt = false := by
  unfold ConfigParser.has_option
  rw [if_neg hdd, hm]

/-- Writing one option of one existing regular section changes has_option
only at that (section, transformed option) slot. -/
theorem has_option_aset_frame (st : CPState) (sec x : String)
    (m : List (String × PyVal)) (v : PyVal)
    (hdd : ¬(sec = "" ∨ sec = "DEFAULT"))
    (hm : alookup st._sections sec = some m)
    (sec' opt' : String)
    (h : ¬(sec' = sec ∧ ConfigParser.optionxform opt' = x)) :
    ConfigParser.has_option
      { st with _sections := aset st._sections sec (aset m x v) } sec' opt' =
      ConfigParser.has_option st sec' opt' := by
  by_cases hdd' : sec' = "" ∨ sec' = "DEFAULT"
  · rcases hdd' with h1 | h1 <;> subst h1 <;>
      simp [ConfigParser.has_option]
  · by_cases hss : sec' = sec
    · subst hss
      have hx : ConfigParser.optionxform opt' ≠ x := fun hh => h ⟨rfl, hh⟩
      rw [has_option_normal _ _ _ hdd' _ (by rw [alookup_aset_self] : alookup
          (aset st._sections sec' (aset m x v)) sec' = some (aset m x v)),
        has_option_normal _ _ _ hdd' _ hm, alookup_aset_ne _ _ _ _ hx]
    · rcases hm' : alookup st._sections sec' with _ | m'
      · rw [has_option_missing _ _ _ hdd'
            (by rw [alookup_aset_ne _ _ _ _ hss, hm']),
          has_option_missing _ _ _ hdd' hm']
      · rw [has_option_normal _ _ _ hdd' m'
            (by rw [alookup_aset_ne _ _ _ _ hss, hm']),
          has_option_normal _ _ _ hdd' m' hm']

/-- One migration step, characterised: it returns (without raising), appends
exactly the deprecation warning of the old name when triggered and nothing
otherwise, never touches the cached flag or the parser defaults, changes
has_option at most at the (section, new name) slot, and is the identity
when not triggered. -/
theorem migrate_one_spec (c : NipypeConfig) (ws : List String) (sec old new ver : String)
    (hsec1 : sec ≠ "") (hsec2 : sec ≠ "DEFAULT")
    (hdep : alookup CONFIG_DEPRECATIONS old = some (new, ver))
    (hnew : alookup CONFIG_DEPRECATIONS new = none) :
    ∃ c2, migrate_one sec old new (c, ws) = some (c2, ws ++
        (if migration_trigger c._config sec old new then (resolve_option old).2 else [])) ∧
      c2._resource_monitor = c._resource_monitor ∧
      c2._config._defaults = c._config._defaults ∧
      (∀ sec' opt',
        ¬(sec' = sec ∧ ConfigParser.optionxform opt' = ConfigParser.optionxform new) →
        ConfigParser.has_option c2._config sec' opt' =
          ConfigParser.has_option c._config sec' opt') ∧
      (migration_trigger c._config sec old new = false → c2 = c) := by
  have hdd : ¬(sec = "" ∨ sec = "DEFAULT") := by
    rintro (h1 | h1)
    · exact hsec1 h1
    · exact hsec2 h1
  cases hb : migration_trigger c._config sec old new with
  | false =>
      refine ⟨c, ?_, rfl, rfl, fun _ _ _ => rfl, fun _ => rfl⟩
      simp [migrate_one, hb]
  | true =>
      have hsplit := hb
      unfold migration_trigger at hsplit
      rw [Bool.and_eq_true, Bool.not_eq_true'] at hsplit
      obtain ⟨hold, hnewf⟩ := hsplit
      obtain ⟨m, hm⟩ : ∃ m, alookup c._config._sections sec = some m := by
        rcases hmm : alookup c._config._sections sec with _ | m
        · rw [has_option_missing _ _ _ hdd hmm] at hold
          cases hold
        · exact ⟨m, rfl⟩
      have hget : c.get sec old none = (.val none, [deprecationMsg old ver new]) := by
        simp [NipypeConfig.get, resolve_option, hdep, hnewf]
      have hset : c.set sec new (ConfigValue.ofPyVal none) =
          (some { c with _config := { c._config with
            _sections := aset c._config._sections sec
              (aset m (ConfigParser.optionxform new) none) } }, []) := by
        simp [NipypeConfig.set, resolve_option, hnew, ConfigValue.ofPyVal,
          ConfigValue.toPyVal, ConfigParser.set, hsec1, hsec2, hm]
      refine ⟨{ c with _config := { c._config with
          _sections := aset c._config._sections sec
            (aset m (ConfigParser.optionxform new) none) } }, ?_, rfl, rfl, ?_, ?_⟩
      · simp only [migrate_one, hb, if_true, hget, hset, resolve_option, hdep]
        simp
      · intro sec' opt' hne
        exact has_option_aset_frame c._config sec (ConfigParser.optionxform new) m none
          hdd hm sec' opt' hne
      · intro hf
        exact absurd hf (by decide)

/-- C1 counterexample: constructing the store over an overlay that supplies
the deprecated option filemanip_level in the execution section (where its
replacement utils_level is absent from the defaults) emits one deprecation
warning from the migration pass, not zero: the pass copies through self.get
on the old name, which warns. -/
theorem init_migration_warns_counterexample :
    (NipypeConfig.init "h" "c" [("execution", "filemanip_level", "debug")]).map Prod.snd =
      some [deprecationMsg "filemanip_level" "1.0" "utils_level"] := by
  decide

/-- C1 (amended): for every home directory, working directory and overlay,
construction returns (never raises) and the migration pass emits exactly one
deprecation warning per (section, deprecated option) combination it
migrates, in iteration order, as characterised on the post-overlay parser
state; in particular it is silent exactly when nothing is migrated. -/
theorem init_warning_characterisation (hd cwd : String)
    (es : List (String × String × String)) :
    (NipypeConfig.init hd cwd es).map Prod.snd =
      some (migration_warning_list (ConfigParser.read_file
        (ConfigParser.read_file { _defaults := [], _sections := [] }
          (default_cfg hd cwd)) es)) := by
  simp only [NipypeConfig.init]
  generalize ConfigParser.read_file
      (ConfigParser.read_file { _defaults := [], _sections := [] }
        (default_cfg hd cwd)) es = cp
  have hcombos : migration_combos =
      [("execution", "profile_runtime", "resource_monitor"),
       ("logging", "profile_runtime", "resource_monitor"),
       ("execution", "filemanip_level", "utils_level"),
       ("logging", "filemanip_level", "utils_level")] := rfl
  rw [hcombos]
  simp only [List.foldlM_cons, List.foldlM_nil]
  obtain ⟨c1, h1, hrm1, hdf1, hpre1, hid1⟩ :=
    migrate_one_spec ({ _config := cp, _resource_monitor := none } : NipypeConfig) []
      "execution" "profile_runtime" "resource_monitor" "1.0"
      (by decide) (by decide) (by decide) (by decide)
  simp only [List.nil_append] at h1
  rw [h1]
  simp only [Option.bind_eq_bind, Option.some_bind]
  have htr2 : migration_trigger c1._config "logging" "profile_runtime" "resource_monitor" =
      migration_trigger cp "logging" "profile_runtime" "resource_monitor" := by
    unfold migration_trigger
    rw [hpre1 "logging" "profile_runtime" (by decide),
      hpre1 "logging" "resource_monitor" (by decide)]
  obtain ⟨c2, h2, hrm2, hdf2, hpre2, hid2⟩ :=
    migrate_one_spec c1
      (if migration_trigger cp "execution" "profile_runtime" "resource_monitor" then
        (resolve_option "profile_runtime").2 else [])
      "logging" "profile_runtime" "resource_monitor" "1.0"
      (by decide) (by decide) (by decide) (by decide)
  rw [htr2] at h2
  rw [h2]
  simp only [Option.bind_eq_bind, Option.some_bind]
  have htr3 : migration_trigger c2._config "execution" "filemanip_level" "utils_level" =
      migration_trigger cp "execution" "filemanip_level" "utils_level" := by
    unfold migration_trigger
    rw [hpre2 "execution" "filemanip_level" (by decide),
      hpre2 "execution" "utils_level" (by decide),
      hpre1 "execution" "filemanip_level" (by decide),
      hpre1 "execution" "utils_level" (by decide)]
  obtain ⟨c3, h3, hrm3, hdf3, hpre3, hid3⟩ :=
    migrate_one_spec c2
      ((if migration_trigger cp "execution" "profile_runtime" "resource_monitor" then
          (resolve_option "profile_runtime").2 else []) ++
        (if migration_trigger cp "logging" "profile_runtime" "resource_monitor" then
          (resolve_option "profile_runtime").2 else []))
      "execution" "filemanip_level" "utils_level" "1.0"
      (by decide) (by decide) (by decide) (by decide)
  rw [htr3] at h3
  rw [h3]
  simp only [Option.bind_eq_bind, Option.some_bind]
  have htr4 : migration_trigger c3._config "logging" "filemanip_level" "utils_level" =
      migration_trigger cp "logging" "filemanip_level" "utils_level" := by
    unfold migration_trigger
    rw [hpre3 "logging" "filemanip_level" (by decide),
      hpre3 "logging" "utils_level" (by decide),
      hpre2 "logging" "filemanip_level" (by decide),
      hpre2 "logging" "utils_level" (by decide),
      hpre1 "logging" "filemanip_level" (by decide),
      hpre1 "logging" "utils_level" (by decide)]
  obtain ⟨c4, h4, hrm4, hdf4, hpre4, hid4⟩ :=
    migrate_one_spec c3
      (((if migration_trigger cp "execution" "profile_runtime" "resource_monitor" then
          (resolve_option "profile_runtime").2 else []) ++
        (if migration_trigger cp "logging" "profile_runtime" "resource_monitor" then
          (resolve_option "profile_runtime").2 else [])) ++
        (if migration_trigger cp "execution" "filemanip_level" "utils_level" then
          (resolve_option "filemanip_level").2 else []))
      "logging" "filemanip_level" "utils_level" "1.0"
      (by decide) (by decide) (by decide) (by decide)
  rw [htr4] at h4
  rw [h4]
  cases ht1 : migration_trigger cp "execution" "profile_runtime" "resource_monitor" <;>
    cases ht2 : migration_trigger cp "logging" "profile_runtime" "resource_monitor" <;>
      cases ht3 : migration_trigger cp "execution" "filemanip_level" "utils_level" <;>
        cases ht4 : migration_trigger cp "logging" "filemanip_level" "utils_level" <;>
          simp [migration_warning_list, hcombos, ht1, ht2, ht3, ht4]

end Nipype
